import Mathlib

/-!
Verification of the Local Inference Service Supervisor of this repository.

The Rust sources are shallowly embedded here:
  * Rust `&str` / `String` values are modelled as `List Char` (`RustStr`),
    with the string operations used by the sources (`contains`,
    `starts_with`, `trim`, `lines`, `to_lowercase`, byte `len`) translated
    to executable Lean functions.
  * The HTTP transport and the process environment are injected as explicit
    outcome values (`HttpOutcome`, `FetchOutcome`, `EmbeddedEnv`, `InitEnv`),
    so the effectful functions of `ollama_manager.rs` and `lib.rs` become
    pure functions of the injected outcomes and the relevant state bits.
  * `f64` confidence literals are modelled as exact rationals.
-/

/-- Rust strings, modelled as their sequence of Unicode scalar values. -/
abbrev RustStr := List Char

/-- Rust `str::starts_with(pat)`: `pat` begins the string. -/
def startsWithCh : RustStr → RustStr → Bool
  | _, [] => true
  | [], _ :: _ => false
  | c :: cs, p :: ps => c == p && startsWithCh cs ps

/-- Rust `str::contains(pat)`: substring search. -/
def containsSub : RustStr → RustStr → Bool
  | [], pat => pat.isEmpty
  | c :: t, pat => startsWithCh (c :: t) pat || containsSub t pat

/-- Rust `str::to_lowercase()` (ASCII fragment, which covers every literal
used by the sources). -/
def toLowercase (s : RustStr) : RustStr :=
  s.map Char.toLower

/-- Rust `str::trim()`: drop whitespace from both ends. -/
def rustTrim (s : RustStr) : RustStr :=
  ((s.dropWhile Char.isWhitespace).reverse.dropWhile Char.isWhitespace).reverse

/-- Split a string at every newline character; the last component is the
remainder after the final newline (possibly empty). -/
def splitOnNewline : RustStr → List RustStr
  | [] => [[]]
  | c :: t =>
    if c = '\n' then [] :: splitOnNewline t
    else
      match splitOnNewline t with
      | [] => [[c]]
      | h :: r => (c :: h) :: r

/-- Drop one trailing carriage return, as Rust `lines()` does for a
`\r\n` terminator. -/
def stripCr (s : RustStr) : RustStr :=
  match s.reverse with
  | c :: rest => if c = '\r' then rest.reverse else s
  | [] => s

/-- Rust `str::lines()`: split at `\n` (a preceding `\r` is stripped from
terminated lines); a final empty remainder is not produced as a line. -/
def rustLines (s : RustStr) : List RustStr :=
  let parts := splitOnNewline s
  let terminated := parts.dropLast.map stripCr
  if parts.getLast? = some [] then terminated
  else terminated ++ parts.getLast?.toList

/-- Rust `str::len()`: length in UTF-8 bytes. -/
def rustLen (s : RustStr) : Nat :=
  (s.map Char.utf8Size).sum

/-! ## `medical_ai.rs`: response analysis -/

/-- `medical_ai.rs`: the fixed emergency keyword list of
`analyze_medical_response`. -/
def emergencyKeywords : List RustStr :=
  [("chest pain".data), ("difficulty breathing".data), ("severe pain".data),
   ("unconscious".data), ("bleeding heavily".data),
   ("severe allergic reaction".data), ("heart attack".data), ("stroke".data),
   ("severe burn".data), ("choking".data), ("overdose".data)]

/-- `analyze_medical_response`, emergency flag: any keyword is a substring
of the lowercased original query. -/
def emergency_detected_of (original_query : RustStr) : Bool :=
  emergencyKeywords.any (fun keyword => containsSub (toLowercase original_query) keyword)

/-- The capture test of `extract_recommendations`, applied to a (trimmed)
line: bullet marker or the substring `recommend`. -/
def recLineTest (line : RustStr) : Bool :=
  startsWithCh line ("- ".data) || startsWithCh line ("• ".data)
    || containsSub line ("recommend".data)

/-- `medical_ai.rs`: `extract_recommendations`. Each line is trimmed; a
trimmed line passing `recLineTest` is pushed; then the two boilerplate
entries are pushed when the lowercased reply contains `symptoms` / `pain`. -/
def extract_recommendations (response : RustStr) : List RustStr :=
  let recommendations :=
    (rustLines response).foldl
      (fun acc line =>
        if recLineTest (rustTrim line) then acc ++ [rustTrim line] else acc) []
  let recommendations :=
    if containsSub (toLowercase response) ("symptoms".data) then
      recommendations ++ [("Monitor symptoms and their progression".data)]
    else recommendations
  let recommendations :=
    if containsSub (toLowercase response) ("pain".data) then
      recommendations ++ [("Keep a symptom diary including pain levels and triggers".data)]
    else recommendations
  recommendations

/-- `medical_ai.rs`: the `MedicalGuidance` struct. -/
structure MedicalGuidance where
  severity : Option RustStr
  recommendations : List RustStr
  emergency_action : Option RustStr
  follow_up : Option RustStr
deriving DecidableEq

/-- `medical_ai.rs`: the `MedicalResponse` struct. The `f64` confidence is
modelled as an exact rational. -/
structure MedicalResponse where
  response : RustStr
  confidence : Rat
  emergency_detected : Bool
  medical_guidance : Option MedicalGuidance
deriving DecidableEq

/-- The `0.8` confidence literal of `analyze_medical_response`. -/
def confHigh : Rat := 8/10

/-- The `0.6` confidence literal of `analyze_medical_response`. -/
def confLow : Rat := 6/10

/-- `analyze_medical_response`, guidance construction: present when a
recommendation was extracted or an emergency was detected. -/
def medical_guidance_of (emergency_detected : Bool) (recommendations : List RustStr) :
    Option MedicalGuidance :=
  if !recommendations.isEmpty || emergency_detected then
    some
      { severity :=
          if emergency_detected then some ("high".data) else some ("moderate".data)
        recommendations := recommendations
        emergency_action :=
          if emergency_detected then
            some ("Seek immediate medical attention or call emergency services.".data)
          else none
        follow_up :=
          some ("Consider consulting with a healthcare professional for personalized advice.".data) }
  else none

/-- `medical_ai.rs`: `analyze_medical_response` (its pure data content; the
`Result`/`async` wrapper never fails). -/
def analyze_medical_response (ai_response original_query : RustStr) : MedicalResponse :=
  { response := ai_response
    confidence := if rustLen ai_response > 100 then confHigh else confLow
    emergency_detected := emergency_detected_of original_query
    medical_guidance :=
      medical_guidance_of (emergency_detected_of original_query)
        (extract_recommendations ai_response) }

/-! ## `ollama_manager.rs`: transport model -/

/-- Outcome of one `reqwest` GET whose body is never inspected: either the
send fails, or a response with some status code arrives. -/
inductive HttpOutcome where
  | netErr
  | resp (status : Nat)
deriving DecidableEq

/-- `reqwest::StatusCode::is_success()`: `200..=299`. -/
def statusIsSuccess (s : Nat) : Bool :=
  decide (200 ≤ s) && decide (s < 300)

/-- The error values produced by `ollama_manager.rs`, tagged by origin
(`anyhow` in the source erases the type, not the cause). -/
inductive ServiceError where
  | unreachable
  | badStatus (status : Nat)
  | badResponse
  | pullFailed (status : Nat)
deriving DecidableEq

instance {ε α : Type} [DecidableEq ε] [DecidableEq α] : DecidableEq (Except ε α) :=
  fun x y =>
    match x, y with
    | .error a, .error b =>
      if h : a = b then isTrue (congrArg Except.error h)
      else isFalse (fun he => h (Except.error.inj he))
    | .ok a, .ok b =>
      if h : a = b then isTrue (congrArg Except.ok h)
      else isFalse (fun he => h (Except.ok.inj he))
    | .error _, .ok _ => isFalse (fun he => Except.noConfusion he)
    | .ok _, .error _ => isFalse (fun he => Except.noConfusion he)

/-- `ollama_manager.rs`: `health_check`. All transport failures collapse to
`Ok(false)`; a response maps to `Ok(status.is_success())`. -/
def health_check : HttpOutcome → Except ServiceError Bool
  | .netErr => .ok false
  | .resp s => .ok (statusIsSuccess s)

/-! ## `list_models` and its JSON handling -/

/-- A `serde_json::Value`. -/
inductive Json where
  | null
  | bool (b : Bool)
  | num (n : Int)
  | str (s : RustStr)
  | arr (elems : List Json)
  | obj (fields : List (RustStr × Json))

/-- `serde_json` `Value::index` with a string key: field lookup on objects,
`Null` on a missing key or a non-object. -/
def jsonGetField (j : Json) (key : RustStr) : Json :=
  match j with
  | .obj fields => ((fields.find? (fun kv => kv.fst == key)).map (fun kv => kv.snd)).getD Json.null
  | _ => Json.null

/-- `Value::as_array`. -/
def asArray : Json → Option (List Json)
  | .arr elems => some elems
  | _ => none

/-- `Value::as_str` (returning the string content). -/
def asStr : Json → Option RustStr
  | .str s => some s
  | _ => none

/-- Outcome of one `reqwest` GET/POST whose body matters: send failure, or a
response with a status and a body that either is JSON or is not. -/
inductive FetchOutcome where
  | sendErr
  | resp (status : Nat) (body : Option Json)

/-- `ollama_manager.rs`: `list_models`. Send failure and non-success status
are errors; an unparseable body is an error; a JSON body is read leniently:
`json[\x22models\x22].as_array().unwrap_or(vec![])`, each entry contributing
its `name` field only when that is a string. -/
def list_models (o : FetchOutcome) : Except ServiceError (List RustStr) :=
  match o with
  | .sendErr => .error .unreachable
  | .resp status body =>
    if statusIsSuccess status then
      match body with
      | none => .error .badResponse
      | some json =>
        let models :=
          match asArray (jsonGetField json ("models".data)) with
          | none => []
          | some elems =>
            elems.filterMap (fun m => asStr (jsonGetField m ("name".data)))
        .ok models
    else .error (.badStatus status)

/-- Modelled from the spec: the strict payload shape named by the spec,
`\x7bmodels: [\x7bname: string\x7d, ...]\x7d` — every entry must carry a
string `name`. Used only to compare the spec's reading with the source's
lenient extraction. -/
def parseNames : List Json → Option (List RustStr)
  | [] => some []
  | m :: ms =>
    match asStr (jsonGetField m ("name".data)), parseNames ms with
    | some s, some rest => some (s :: rest)
    | _, _ => none

/-- Modelled from the spec: parse a whole payload into the expected shape,
strictly. -/
def expectedShapeParse (j : Json) : Option (List RustStr) :=
  match asArray (jsonGetField j ("models".data)) with
  | some elems => parseNames elems
  | none => none

/-! ## `ensure_model` -/

/-- `ollama_manager.rs`: `ensure_model`, over injected outcomes for the
`list_models` and `pull_model` calls. The second component records whether
`pull_model` was invoked. -/
def ensure_model (model : RustStr) (listOutcome : Except ServiceError (List RustStr))
    (pullOutcome : Except ServiceError Unit) : Except ServiceError Unit × Bool :=
  match listOutcome with
  | .error e => (.error e, false)
  | .ok models =>
    if models.any (fun m => containsSub m model) then (.ok (), false)
    else
      match pullOutcome with
      | .ok _ => (.ok (), true)
      | .error e => (.error e, true)

/-! ## `start_embedded` and `start_ai_service_internal` -/

/-- Environment injected into one `start_embedded` run: whether resolving
the binary path, creating the data directory and spawning succeed, and the
transport outcome of the post-settling liveness probe. -/
structure EmbeddedEnv where
  pathOk : Bool
  mkdirOk : Bool
  spawnOk : Bool
  probe : HttpOutcome
deriving DecidableEq

/-- Observable result of one `start_embedded` run: final process-handle
state, whether a spawn happened, how many liveness probes ran, whether the
spawned process was killed, and the returned `Result`. -/
structure StartResult where
  processSet : Bool
  spawned : Bool
  probes : Nat
  killed : Bool
  ok : Bool
deriving DecidableEq

/-- `ollama_manager.rs`: `start_embedded`. Returns immediately when the
handle is already set; otherwise path resolution, directory creation and
spawn each propagate failure; after a successful spawn the handle is set,
the settling sleep runs, and one `health_check` is performed through `?` —
which, `health_check` being infallible, can only rethrow an `Err` that
never occurs; its boolean is discarded. -/
def start_embedded (processAlreadySet : Bool) (env : EmbeddedEnv) : StartResult :=
  if processAlreadySet then
    { processSet := true, spawned := false, probes := 0, killed := false, ok := true }
  else if !env.pathOk then
    { processSet := false, spawned := false, probes := 0, killed := false, ok := false }
  else if !env.mkdirOk then
    { processSet := false, spawned := false, probes := 0, killed := false, ok := false }
  else if !env.spawnOk then
    { processSet := false, spawned := false, probes := 0, killed := false, ok := false }
  else
    match health_check env.probe with
    | .error _ =>
      { processSet := true, spawned := true, probes := 1, killed := false, ok := false }
    | .ok _ =>
      { processSet := true, spawned := true, probes := 1, killed := false, ok := true }

/-- `true` exactly on `Except.ok`. -/
def isOkB {ε α : Type} : Except ε α → Bool
  | .ok _ => true
  | .error _ => false

/-- Environment injected into one `start_ai_service_internal` run: the
embedded-start environment, the transport outcome of the external liveness
probe, and the outcomes feeding `ensure_model`. -/
structure InitEnv where
  embedded : EmbeddedEnv
  externalProbe : HttpOutcome
  listOutcome : Except ServiceError (List RustStr)
  pullOutcome : Except ServiceError Unit
deriving DecidableEq

/-- Observable result of one `start_ai_service_internal` run: whether a
`MedicalAI` instance ends up installed, whether an embedded start was
attempted, total liveness probes, whether `ensure_model` ran (and with
which success bit), and the returned `Result`. -/
structure InitResult where
  installed : Bool
  startAttempted : Bool
  probes : Nat
  ensureCalled : Bool
  ensureOk : Option Bool
  ok : Bool
deriving DecidableEq

/-- `lib.rs`: `start_ai_service_internal` (the body of
`initialize_ai_service`). Returns at once when the `medical_ai` slot is
occupied; otherwise tries the embedded start, falls back to an external
liveness probe, gives up if both fail; then runs `ensure_model` whose
result is only logged, installs the `MedicalAI` instance and succeeds. -/
def start_ai_service_internal (alreadyInitialized : Bool) (env : InitEnv) : InitResult :=
  if alreadyInitialized then
    { installed := true, startAttempted := false, probes := 0,
      ensureCalled := false, ensureOk := none, ok := true }
  else
    let s := start_embedded false env.embedded
    let ensureRes :=
      isOkB (ensure_model ("tinyllama:latest".data) env.listOutcome env.pullOutcome).fst
    if s.ok then
      { installed := true, startAttempted := true, probes := s.probes,
        ensureCalled := true, ensureOk := some ensureRes, ok := true }
    else
      match health_check env.externalProbe with
      | .ok true =>
        { installed := true, startAttempted := true, probes := s.probes + 1,
          ensureCalled := true, ensureOk := some ensureRes, ok := true }
      | .ok false =>
        { installed := false, startAttempted := true, probes := s.probes + 1,
          ensureCalled := false, ensureOk := none, ok := false }
      | .error _ =>
        { installed := false, startAttempted := true, probes := s.probes + 1,
          ensureCalled := false, ensureOk := none, ok := false }

/-- Modelled from the spec: recommendation extraction as the spec sentence
reads — each raw line is tested as-is and captured verbatim, with no
trimming. Used only to compare the spec's reading with the source. -/
def extract_recommendations_claimed (response : RustStr) : List RustStr :=
  ((rustLines response).filter recLineTest)
  ++ (if containsSub (toLowercase response) ("symptoms".data) then
        [("Monitor symptoms and their progression".data)]
      else [])
  ++ (if containsSub (toLowercase response) ("pain".data) then
        [("Keep a symptom diary including pain levels and triggers".data)]
      else [])

/-! ## Helper lemmas -/

/-- The push-loop of `extract_recommendations` builds exactly the filtered
map of the trimmed lines, appended to the accumulator. -/
theorem foldl_trim_filter (xs : List RustStr) :
    ∀ acc : List RustStr,
      xs.foldl
        (fun acc line =>
          if recLineTest (rustTrim line) then acc ++ [rustTrim line] else acc) acc
        = acc ++ (xs.map rustTrim).filter recLineTest := by
  induction xs with
  | nil => intro acc; simp
  | cons x xs ih =>
    intro acc
    simp only [List.foldl_cons, List.map_cons, List.filter_cons]
    cases h : recLineTest (rustTrim x) <;> simp [h, ih, List.append_assoc]

/-- Strict parsing success implies the lenient extraction returns the same
names. -/
theorem parseNames_filterMap :
    ∀ (elems : List Json) (names : List RustStr),
      parseNames elems = some names →
      elems.filterMap (fun m => asStr (jsonGetField m ("name".data))) = names := by
  intro elems
  induction elems with
  | nil =>
    intro names h
    simp only [parseNames, Option.some.injEq] at h
    simp [← h]
  | cons m ms ih =>
    intro names h
    simp only [parseNames] at h
    cases hm : asStr (jsonGetField m ("name".data)) with
    | none => simp [hm] at h
    | some s =>
      cases hr : parseNames ms with
      | none => simp [hm, hr] at h
      | some rest =>
        simp only [hm, hr] at h
        injection h with h'
        subst h'
        simp [List.filterMap_cons, hm, ih rest hr]

/-- Field behaviour of the guidance constructor of
`analyze_medical_response`, for every emergency flag and recommendation
list. -/
theorem medical_guidance_of_spec (e : Bool) (recs : List RustStr) :
    ((medical_guidance_of e recs).isSome = (e || !recs.isEmpty))
    ∧ ∀ g : MedicalGuidance, medical_guidance_of e recs = some g →
        (g.severity = some ("high".data) ↔ e = true)
        ∧ (g.severity = some ("moderate".data) ↔ e = false)
        ∧ g.emergency_action.isSome = e
        ∧ g.follow_up
            = some ("Consider consulting with a healthcare professional for personalized advice.".data) := by
  have hne : ("high".data : RustStr) ≠ ("moderate".data) := by decide
  have hne' : ("moderate".data : RustStr) ≠ ("high".data) := by decide
  cases e with
  | false =>
    cases hr : recs.isEmpty with
    | true =>
      refine ⟨by simp [medical_guidance_of, hr], fun g hg => ?_⟩
      simp [medical_guidance_of, hr] at hg
    | false =>
      refine ⟨by simp [medical_guidance_of, hr], fun g hg => ?_⟩
      simp only [medical_guidance_of, hr] at hg
      simp only [Bool.not_false, Bool.true_or, if_true, Option.some.injEq] at hg
      subst hg
      simp [hne']
  | true =>
    cases hr : recs.isEmpty with
    | true =>
      refine ⟨by simp [medical_guidance_of, hr], fun g hg => ?_⟩
      simp only [medical_guidance_of, hr] at hg
      simp only [Bool.not_true, Bool.false_or, if_true, Option.some.injEq] at hg
      subst hg
      simp [hne]
    | false =>
      refine ⟨by simp [medical_guidance_of, hr], fun g hg => ?_⟩
      simp only [medical_guidance_of, hr] at hg
      simp only [Bool.not_false, Bool.true_or, if_true, Option.some.injEq] at hg
      subst hg
      simp [hne]

/-! ## Claim theorems -/

/-- C1: in `start_embedded`, after a successful spawn and the settling
sleep, exactly one liveness probe runs and the process is not killed; but
because `health_check` never returns `Err` and its boolean is discarded by
`?`, a probe answering `false` (here: connection refused) still lets the
call return success — contradicting the claimed `StartupTimeout` failure. -/
theorem start_embedded_succeeds_despite_dead_probe :
    health_check HttpOutcome.netErr = Except.ok false
    ∧ start_embedded false
        { pathOk := true, mkdirOk := true, spawnOk := true, probe := HttpOutcome.netErr }
        = { processSet := true, spawned := true, probes := 1, killed := false, ok := true } :=
  ⟨rfl, rfl⟩

/-- C2: start is idempotent at both layers — with the process handle
already set, `start_embedded` succeeds at once without spawning or
probing; with the manager already initialized, `start_ai_service_internal`
succeeds at once without start, liveness or model work. -/
theorem start_idempotent_both_layers :
    (∀ env : EmbeddedEnv,
      start_embedded true env =
        { processSet := true, spawned := false, probes := 0, killed := false, ok := true })
    ∧ (∀ env : InitEnv,
      start_ai_service_internal true env =
        { installed := true, startAttempted := false, probes := 0,
          ensureCalled := false, ensureOk := none, ok := true }) :=
  ⟨fun _ => rfl, fun _ => rfl⟩

/-- C3: `analyze_medical_response` detects an emergency exactly when the
lowercased original query contains one of the fixed keywords; the reply is
never consulted; the two sample queries behave as claimed. -/
theorem emergency_detection_query_only :
    (∀ r₁ r₂ q : RustStr,
        (analyze_medical_response r₁ q).emergency_detected
          = (analyze_medical_response r₂ q).emergency_detected)
    ∧ (∀ r q : RustStr,
        (analyze_medical_response r q).emergency_detected = true
          ↔ ∃ k ∈ emergencyKeywords, containsSub (toLowercase q) k = true)
    ∧ (analyze_medical_response ("".data)
        ("I have severe chest pain".data)).emergency_detected = true
    ∧ (analyze_medical_response ("".data)
        ("what is a healthy diet".data)).emergency_detected = false := by
  refine ⟨fun r₁ r₂ q => rfl, fun r q => ?_, by decide, by decide⟩
  show emergency_detected_of q = true ↔ _
  simp [emergency_detected_of, List.any_eq_true]

/-- C4 counterexample: the claim reads lines verbatim, but the source trims
each line before the test and the capture. On the reply `\x20- a` the
source captures the trimmed `- a` while the verbatim reading captures
nothing, and the captured value differs from the raw line. -/
theorem extract_recommendations_not_verbatim_cex :
    extract_recommendations (" - a".data) = [("- a".data)]
    ∧ extract_recommendations_claimed (" - a".data) = []
    ∧ (" - a".data : RustStr) ≠ ("- a".data) :=
  ⟨by decide, by decide, by decide⟩

/-- C4 amended: each line is trimmed; trimmed lines passing the bullet /
`recommend` test are captured in trimmed form, in order, then the symptoms
and pain boilerplate entries are appended under their case-insensitive
content tests, with no deduplication; the two-bullets-plus-pain sample
yields both bullets then the pain entry. -/
theorem extract_recommendations_trimmed_lines :
    (∀ r : RustStr,
        extract_recommendations r =
          ((rustLines r).map rustTrim).filter recLineTest
          ++ (if containsSub (toLowercase r) ("symptoms".data) then
                [("Monitor symptoms and their progression".data)]
              else [])
          ++ (if containsSub (toLowercase r) ("pain".data) then
                [("Keep a symptom diary including pain levels and triggers".data)]
              else []))
    ∧ extract_recommendations ("- drink water\n• rest well\nabout pain".data)
        = [("- drink water".data), ("• rest well".data),
           ("Keep a symptom diary including pain levels and triggers".data)] := by
  constructor
  · intro r
    simp only [extract_recommendations]
    rw [foldl_trim_filter]
    cases hS : containsSub (toLowercase r) ("symptoms".data) <;>
      cases hP : containsSub (toLowercase r) ("pain".data) <;>
        simp [hS, hP, List.append_assoc]
  · decide

/-- C5: guidance is present exactly when an emergency was detected or a
recommendation was extracted; when present, severity is `high` exactly on
emergency and `moderate` otherwise, the emergency action is present exactly
on emergency, and the follow-up is the fixed consultation string. -/
theorem medical_guidance_population :
    ∀ r q : RustStr,
      ((analyze_medical_response r q).medical_guidance.isSome
          = ((analyze_medical_response r q).emergency_detected
              || !(extract_recommendations r).isEmpty))
      ∧ ∀ g : MedicalGuidance,
          (analyze_medical_response r q).medical_guidance = some g →
            (g.severity = some ("high".data)
                ↔ (analyze_medical_response r q).emergency_detected = true)
            ∧ (g.severity = some ("moderate".data)
                ↔ (analyze_medical_response r q).emergency_detected = false)
            ∧ g.emergency_action.isSome = (analyze_medical_response r q).emergency_detected
            ∧ g.follow_up
                = some ("Consider consulting with a healthcare professional for personalized advice.".data) :=
  fun r q => medical_guidance_of_spec (emergency_detected_of q) (extract_recommendations r)

/-- C5 witness: on the reply `- rest` (one bullet, no emergency) guidance
is present with severity `moderate`, no emergency action, and the fixed
follow-up string. -/
theorem medical_guidance_population_witness :
    ((analyze_medical_response ("- rest".data) ("".data)).medical_guidance.isSome
        = ((analyze_medical_response ("- rest".data) ("".data)).emergency_detected
            || !(extract_recommendations ("- rest".data)).isEmpty))
    ∧ ((MedicalGuidance.mk (some ("moderate".data)) [("- rest".data)] none
          (some ("Consider consulting with a healthcare professional for personalized advice.".data))).severity
        = some ("moderate".data)
        ↔ (analyze_medical_response ("- rest".data) ("".data)).emergency_detected = false) :=
  ⟨(medical_guidance_population ("- rest".data) ("".data)).1,
   (((medical_guidance_population ("- rest".data) ("".data)).2
      (MedicalGuidance.mk (some ("moderate".data)) [("- rest".data)] none
        (some ("Consider consulting with a healthcare professional for personalized advice.".data)))
      (by decide)).2.1)⟩

/-- C6 counterexample: the claim measures the reply in characters, the
source in UTF-8 bytes (`str::len`). A reply of 51 two-byte characters has
102 bytes, so the source yields the high confidence although its character
count (51) is at or below the threshold, where the claim demands the low
value. -/
theorem confidence_byte_length_cex :
    (List.replicate 51 'é').length ≤ 100
    ∧ (analyze_medical_response (List.replicate 51 'é') ("".data)).confidence = confHigh
    ∧ confHigh ≠ confLow := by
  refine ⟨by decide, ?_, by norm_num [confHigh, confLow]⟩
  show (if rustLen (List.replicate 51 'é') > 100 then confHigh else confLow) = confHigh
  rw [if_pos (by decide)]

/-- C6 amended: confidence is exactly `0.8` when the reply's UTF-8 byte
length exceeds 100 and exactly `0.6` otherwise, including at exactly 100
bytes. -/
theorem confidence_threshold_bytes :
    (∀ r q : RustStr,
        (analyze_medical_response r q).confidence
          = if rustLen r > 100 then confHigh else confLow)
    ∧ (analyze_medical_response (List.replicate 100 'a') ("".data)).confidence = confLow
    ∧ (analyze_medical_response (List.replicate 101 'a') ("".data)).confidence = confHigh
    ∧ confHigh = 8/10 ∧ confLow = 6/10 ∧ confHigh ≠ confLow := by
  refine ⟨fun r q => rfl, ?_, ?_, rfl, rfl, by norm_num [confHigh, confLow]⟩
  · show (if rustLen (List.replicate 100 'a') > 100 then confHigh else confLow) = confLow
    rw [if_neg (by decide)]
  · show (if rustLen (List.replicate 101 'a') > 100 then confHigh else confLow) = confHigh
    rw [if_pos (by decide)]

/-- C7: the liveness probe never surfaces an error — every injected
transport outcome yields `Ok`, a network failure yields `Ok false`, and a
response yields `Ok` of its status success bit (so `Ok true` only on a
success status). -/
theorem health_check_never_errors :
    (∀ o : HttpOutcome, ∃ b : Bool, health_check o = Except.ok b)
    ∧ health_check HttpOutcome.netErr = Except.ok false
    ∧ (∀ s : Nat, health_check (HttpOutcome.resp s) = Except.ok (statusIsSuccess s)) :=
  ⟨fun o => match o with
    | .netErr => ⟨false, rfl⟩
    | .resp s => ⟨statusIsSuccess s, rfl⟩,
   rfl, fun _ => rfl⟩

/-- C8: when listing succeeds, `ensure_model` pulls exactly when no listed
entry contains the requested name as a substring, and on a substring match
it succeeds without pulling. -/
theorem ensure_model_substring_skip_pull :
    ∀ (model : RustStr) (models : List RustStr) (pull : Except ServiceError Unit),
      ((ensure_model model (Except.ok models) pull).snd
          = !(models.any (fun m => containsSub m model)))
      ∧ (models.any (fun m => containsSub m model) = true →
          ensure_model model (Except.ok models) pull = (Except.ok (), false)) := by
  intro model models pull
  constructor
  · cases h : models.any (fun m => containsSub m model) with
    | true => simp [ensure_model, h]
    | false => cases pull <;> simp [ensure_model, h]
  · intro h
    simp [ensure_model, h]

/-- C8 witness: an installed `x:latest` satisfies the required `x`, so no
pull happens even when pulling would fail. -/
theorem ensure_model_substring_skip_pull_witness :
    ([("x:latest".data)].any (fun m => containsSub m ("x".data)) = true)
    ∧ ensure_model ("x".data) (Except.ok [("x:latest".data)])
        (Except.error ServiceError.unreachable) = (Except.ok (), false) :=
  ⟨by decide,
   (ensure_model_substring_skip_pull ("x".data) [("x:latest".data)]
      (Except.error ServiceError.unreachable)).2 (by decide)⟩

/-- C9 counterexample: a well-formed JSON payload that does not have the
expected shape (here the empty object) makes `list_models` return `Ok`
with the empty list — not a bad-response failure as the claim states. -/
theorem list_models_lenient_shape_cex :
    expectedShapeParse (Json.obj []) = none
    ∧ list_models (FetchOutcome.resp 200 (some (Json.obj []))) = Except.ok []
    ∧ list_models (FetchOutcome.resp 200 (some (Json.obj [])))
        ≠ Except.error ServiceError.badResponse :=
  ⟨rfl, by decide, by decide⟩

/-- C9 amended: `list_models` fails at transport level when the request
cannot be sent, fails with a status error on a non-success status, fails
as a bad response only when the body is not valid JSON; a valid JSON body
is read leniently — and whenever it does have the expected shape, the
result is exactly those model names. -/
theorem list_models_error_taxonomy :
    (list_models FetchOutcome.sendErr = Except.error ServiceError.unreachable)
    ∧ (∀ (s : Nat) (b : Option Json), statusIsSuccess s = false →
        list_models (FetchOutcome.resp s b) = Except.error (ServiceError.badStatus s))
    ∧ (∀ s : Nat, statusIsSuccess s = true →
        list_models (FetchOutcome.resp s none) = Except.error ServiceError.badResponse)
    ∧ (∀ (s : Nat) (j : Json) (names : List RustStr), statusIsSuccess s = true →
        expectedShapeParse j = some names →
        list_models (FetchOutcome.resp s (some j)) = Except.ok names) := by
  refine ⟨rfl, ?_, ?_, ?_⟩
  · intro s b h
    simp [list_models, h]
  · intro s h
    simp [list_models, h]
  · intro s j names hs hp
    simp only [list_models, hs]
    cases hA : asArray (jsonGetField j ("models".data)) with
    | none => simp [expectedShapeParse, hA] at hp
    | some elems =>
      simp only [expectedShapeParse, hA] at hp
      simp [hA, parseNames_filterMap elems names hp]

/-- C9 witness: a payload of the expected shape with one model entry is
parsed strictly and returned by `list_models`. -/
theorem list_models_error_taxonomy_witness :
    statusIsSuccess 200 = true
    ∧ expectedShapeParse
        (Json.obj [(("models".data),
          Json.arr [Json.obj [(("name".data), Json.str ("tinyllama:latest".data))]])])
        = some [("tinyllama:latest".data)]
    ∧ list_models (FetchOutcome.resp 200 (some (Json.obj [(("models".data),
          Json.arr [Json.obj [(("name".data), Json.str ("tinyllama:latest".data))]])])))
        = Except.ok [("tinyllama:latest".data)] :=
  ⟨by decide, by decide,
   list_models_error_taxonomy.2.2.2 200
     (Json.obj [(("models".data),
       Json.arr [Json.obj [(("name".data), Json.str ("tinyllama:latest".data))]])])
     [("tinyllama:latest".data)] (by decide) (by decide)⟩

/-- C10: whenever the embedded start succeeds, or it fails and the
external liveness probe answers alive, `start_ai_service_internal`
succeeds and installs the `MedicalAI` instance — for every outcome of
`ensure_model`, including failures. -/
theorem ensure_model_failure_nonfatal :
    ∀ env : InitEnv,
      ((start_embedded false env.embedded).ok = true
        ∨ health_check env.externalProbe = Except.ok true) →
      (start_ai_service_internal false env).ok = true
      ∧ (start_ai_service_internal false env).installed = true := by
  intro env h
  simp only [start_ai_service_internal]
  cases hs : (start_embedded false env.embedded).ok with
  | true => simp [hs]
  | false =>
    cases h with
    | inl h => rw [h] at hs; cases hs
    | inr h => simp [hs, h]

/-- C10 witness: with a working embedded start and a `list_models` outcome
that makes `ensure_model` fail, initialization still succeeds, installs
the instance, and records the failed `ensure_model` run. -/
theorem ensure_model_failure_nonfatal_witness :
    ((start_embedded false
        { pathOk := true, mkdirOk := true, spawnOk := true,
          probe := HttpOutcome.resp 200 }).ok = true
      ∨ health_check HttpOutcome.netErr = Except.ok true)
    ∧ (start_ai_service_internal false
        { embedded :=
            { pathOk := true, mkdirOk := true, spawnOk := true,
              probe := HttpOutcome.resp 200 },
          externalProbe := HttpOutcome.netErr,
          listOutcome := Except.error ServiceError.unreachable,
          pullOutcome := Except.error ServiceError.unreachable }).ok = true
    ∧ (start_ai_service_internal false
        { embedded :=
            { pathOk := true, mkdirOk := true, spawnOk := true,
              probe := HttpOutcome.resp 200 },
          externalProbe := HttpOutcome.netErr,
          listOutcome := Except.error ServiceError.unreachable,
          pullOutcome := Except.error ServiceError.unreachable }).installed = true
    ∧ (start_ai_service_internal false
        { embedded :=
            { pathOk := true, mkdirOk := true, spawnOk := true,
              probe := HttpOutcome.resp 200 },
          externalProbe := HttpOutcome.netErr,
          listOutcome := Except.error ServiceError.unreachable,
          pullOutcome := Except.error ServiceError.unreachable }).ensureOk = some false :=
  ⟨Or.inl (by decide),
   (ensure_model_failure_nonfatal
      { embedded :=
          { pathOk := true, mkdirOk := true, spawnOk := true,
            probe := HttpOutcome.resp 200 },
        externalProbe := HttpOutcome.netErr,
        listOutcome := Except.error ServiceError.unreachable,
        pullOutcome := Except.error ServiceError.unreachable }
      (Or.inl (by decide))).1,
   (ensure_model_failure_nonfatal
      { embedded :=
          { pathOk := true, mkdirOk := true, spawnOk := true,
            probe := HttpOutcome.resp 200 },
        externalProbe := HttpOutcome.netErr,
        listOutcome := Except.error ServiceError.unreachable,
        pullOutcome := Except.error ServiceError.unreachable }
      (Or.inl (by decide))).2,
   by decide⟩
